import Mathlib

/-!
Verification development for the doggo volleyball game (doggo_volleyball.py).

The game core is shallowly embedded: pygame floats become exact rationals,
pygame integer Rects become a record of four integers, the global mutable
match state becomes an explicit record threaded through the step functions,
and randomness (serve jitter, random AI serve power) becomes explicit
parameters.  Each definition mirrors the lines of the Python source it is
named after.
-/

namespace Doggo

/-- Court side: the human player (left) or the AI (right). -/
inductive Side where
  | player
  | ai
deriving DecidableEq, Repr

/-- Values of the global game_state string. -/
inductive GameState where
  | start_menu
  | options
  | how_to_play
  | playing
  | serving
  | point_pause
  | game_over
deriving DecidableEq, Repr

/-- Animation state tag of a Dog. -/
inductive AnimState where
  | idle
  | walk
  | run
deriving DecidableEq, Repr

/-- SCREEN_WIDTH = 800. -/
def SCREEN_WIDTH : ℤ := 800

/-- SCREEN_HEIGHT = 600. -/
def SCREEN_HEIGHT : ℤ := 600

/-- GRAVITY = 0.5. -/
def GRAVITY : ℚ := 1/2

/-- GROUND_Y = SCREEN_HEIGHT - 80 = 520. -/
def GROUND_Y : ℤ := 520

/-- NET_HEIGHT = 150. -/
def NET_HEIGHT : ℤ := 150

/-- NET_WIDTH = 10. -/
def NET_WIDTH : ℤ := 10

/-- NET_X = SCREEN_WIDTH // 2 - NET_WIDTH // 2 = 395. -/
def NET_X : ℤ := 395

/-- JUMP_POWER = -12. -/
def JUMP_POWER : ℚ := -12

/-- ACCELERATION = 0.8. -/
def ACCELERATION : ℚ := 4/5

/-- DECELERATION = 0.85. -/
def DECELERATION : ℚ := 85/100

/-- MAX_SPEED = 8. -/
def MAX_SPEED : ℚ := 8

/-- WALK_TO_RUN_THRESHOLD = 20. -/
def WALK_TO_RUN_THRESHOLD : ℕ := 20

/-- MAX_SERVE_POWER = 100. -/
def MAX_SERVE_POWER : ℚ := 100

/-- SERVE_POWER_RATE = 2. -/
def SERVE_POWER_RATE : ℚ := 2

/-- POINT_PAUSE_DURATION = 60. -/
def POINT_PAUSE_DURATION : ℤ := 60

/-- Python int() applied to a rational: truncation toward zero, as used by
`self.rect.x = int(self.x)` in Dog.apply_physics. -/
def pyInt (q : ℚ) : ℤ := if q < 0 then ⌈q⌉ else ⌊q⌋

/-- Python round() applied to a rational: nearest integer, ties to even,
as used by `self.rect.center = (round(self.x), round(self.y))`. -/
def pyRound (q : ℚ) : ℤ :=
  if q - ⌊q⌋ < 1/2 then ⌊q⌋
  else if (1:ℚ)/2 < q - ⌊q⌋ then ⌊q⌋ + 1
  else if ⌊q⌋ % 2 = 0 then ⌊q⌋ else ⌊q⌋ + 1

/-- A pygame Rect: integer left, top, width, height. -/
structure Rect where
  left : ℤ
  top : ℤ
  width : ℤ
  height : ℤ
deriving DecidableEq, Repr

/-- Rect.right = left + width. -/
def Rect.right (r : Rect) : ℤ := r.left + r.width

/-- Rect.bottom = top + height. -/
def Rect.bottom (r : Rect) : ℤ := r.top + r.height

/-- Rect.centerx = left + width // 2. -/
def Rect.centerx (r : Rect) : ℤ := r.left + r.width / 2

/-- Rect.centery = top + height // 2. -/
def Rect.centery (r : Rect) : ℤ := r.top + r.height / 2

/-- Assigning rect.left keeps the size and moves the box. -/
def Rect.setLeft (r : Rect) (v : ℤ) : Rect := { r with left := v }

/-- Assigning rect.right keeps the size and moves the box. -/
def Rect.setRight (r : Rect) (v : ℤ) : Rect := { r with left := v - r.width }

/-- Assigning rect.top keeps the size and moves the box. -/
def Rect.setTop (r : Rect) (v : ℤ) : Rect := { r with top := v }

/-- Assigning rect.bottom keeps the size and moves the box. -/
def Rect.setBottom (r : Rect) (v : ℤ) : Rect := { r with top := v - r.height }

/-- Assigning rect.center = (cx, cy). -/
def Rect.setCenter (r : Rect) (cx cy : ℤ) : Rect :=
  { r with left := cx - r.width / 2, top := cy - r.height / 2 }

/-- pygame colliderect overlap test between two (positive-size) rects. -/
def Rect.colliderect (a b : Rect) : Prop :=
  a.left < b.left + b.width ∧ b.left < a.left + a.width ∧
    a.top < b.top + b.height ∧ b.top < a.top + a.height

instance (a b : Rect) : Decidable (a.colliderect b) := by
  unfold Rect.colliderect
  infer_instance

/-- NET_RECT = Rect(NET_X, GROUND_Y - NET_HEIGHT, NET_WIDTH, NET_HEIGHT). -/
def NET_RECT : Rect := ⟨395, 370, 10, 150⟩

@[simp] theorem NET_RECT_left : NET_RECT.left = 395 := rfl

@[simp] theorem NET_RECT_top : NET_RECT.top = 370 := rfl

@[simp] theorem NET_RECT_width : NET_RECT.width = 10 := rfl

@[simp] theorem NET_RECT_height : NET_RECT.height = 150 := rfl

@[simp] theorem Rect.right_def (r : Rect) : r.right = r.left + r.width := rfl

@[simp] theorem Rect.bottom_def (r : Rect) : r.bottom = r.top + r.height := rfl

@[simp] theorem Rect.centerx_def (r : Rect) : r.centerx = r.left + r.width / 2 := rfl

@[simp] theorem Rect.centery_def (r : Rect) : r.centery = r.top + r.height / 2 := rfl

@[simp] theorem Rect.setLeft_def (r : Rect) (v : ℤ) :
    r.setLeft v = { r with left := v } := rfl

@[simp] theorem Rect.setRight_def (r : Rect) (v : ℤ) :
    r.setRight v = { r with left := v - r.width } := rfl

@[simp] theorem Rect.setTop_def (r : Rect) (v : ℤ) :
    r.setTop v = { r with top := v } := rfl

@[simp] theorem Rect.setBottom_def (r : Rect) (v : ℤ) :
    r.setBottom v = { r with top := v - r.height } := rfl

@[simp] theorem Rect.setCenter_def (r : Rect) (cx cy : ℤ) :
    r.setCenter cx cy = { r with left := cx - r.width / 2, top := cy - r.height / 2 } := rfl

theorem Rect.colliderect_iff (a b : Rect) :
    a.colliderect b ↔
      (a.left < b.left + b.width ∧ b.left < a.left + a.width ∧
        a.top < b.top + b.height ∧ b.top < a.top + a.height) := Iff.rfl

/-- Ball state: float position of the center (x, y), velocity (dx, dy) and the
integer Rect (created as a 30 x 30 box, radius 15). -/
structure Ball where
  x : ℚ
  y : ℚ
  dx : ℚ
  dy : ℚ
  rect : Rect
deriving DecidableEq, Repr

/-- First part of Ball.update: gravity and position integration, applied only
while game_state is playing; the rect is re-centered at the rounded floats. -/
def ballIntegrate (gs : GameState) (b : Ball) : Ball :=
  if gs = GameState.playing then
    { b with
      dy := b.dy + GRAVITY
      x := b.x + b.dx
      y := b.y + b.dy + GRAVITY
      rect := b.rect.setCenter (pyRound (b.x + b.dx)) (pyRound (b.y + b.dy + GRAVITY)) }
  else b

/-- Left wall collision branch of Ball.update (rect.left <= 0): clamp, resync
the float x from the rect, bounce dx with 10 percent energy loss.  The Bool
reports whether the branch fired. -/
def ballLeftWall (b : Ball) : Ball × Bool :=
  if b.rect.left ≤ 0 then
    ({ b with rect := b.rect.setLeft 0
              x := ((b.rect.setLeft 0).centerx : ℚ)
              dx := b.dx * (-(9:ℚ)/10) }, true)
  else (b, false)

/-- Right wall collision branch of Ball.update (rect.right >= SCREEN_WIDTH). -/
def ballRightWall (b : Ball) : Ball × Bool :=
  if 800 ≤ b.rect.right then
    ({ b with rect := b.rect.setRight 800
              x := ((b.rect.setRight 800).centerx : ℚ)
              dx := b.dx * (-(9:ℚ)/10) }, true)
  else (b, false)

/-- Ceiling collision branch of Ball.update (rect.top <= 0). -/
def ballCeiling (b : Ball) : Ball × Bool :=
  if b.rect.top ≤ 0 then
    ({ b with rect := b.rect.setTop 0
              y := ((b.rect.setTop 0).centery : ℚ)
              dy := b.dy * (-(9:ℚ)/10) }, true)
  else (b, false)

/-- Net collision branch of Ball.update: on rect overlap with NET_RECT the
smaller of the horizontal and vertical overlaps picks side hit versus top hit;
a side hit inverts dx with 10 percent gain and nudges the ball just outside
the near net edge, a top (or bottom) hit inverts dy with 10 percent loss and
nudges the ball just past the near horizontal edge. -/
def ballNet (b : Ball) : Ball × Bool :=
  if b.rect.colliderect NET_RECT then
    if min (b.rect.right - NET_RECT.left) (NET_RECT.right - b.rect.left) <
        min (b.rect.bottom - NET_RECT.top) (NET_RECT.bottom - b.rect.top) then
      if b.rect.centerx < NET_RECT.centerx then
        ({ b with dx := b.dx * (-(11:ℚ)/10)
                  rect := b.rect.setRight (NET_RECT.left - 1)
                  x := ((b.rect.setRight (NET_RECT.left - 1)).centerx : ℚ) }, true)
      else
        ({ b with dx := b.dx * (-(11:ℚ)/10)
                  rect := b.rect.setLeft (NET_RECT.right + 1)
                  x := ((b.rect.setLeft (NET_RECT.right + 1)).centerx : ℚ) }, true)
    else
      if b.rect.centery < NET_RECT.centery then
        ({ b with dy := b.dy * (-(9:ℚ)/10)
                  rect := b.rect.setBottom (NET_RECT.top - 1)
                  y := ((b.rect.setBottom (NET_RECT.top - 1)).centery : ℚ) }, true)
      else
        ({ b with dy := b.dy * (-(9:ℚ)/10)
                  rect := b.rect.setTop (NET_RECT.bottom + 1)
                  y := ((b.rect.setTop (NET_RECT.bottom + 1)).centery : ℚ) }, true)
  else (b, false)

/-- Which collision branches of one Ball.update call fired. -/
structure CollisionFlags where
  leftWall : Bool
  rightWall : Bool
  ceiling : Bool
  net : Bool
deriving DecidableEq, Repr

/-- Ball.update: integration (playing only), then the wall, ceiling and net
collision branches in source order, with flags recording which ones fired. -/
def ballUpdate (gs : GameState) (b : Ball) : Ball × CollisionFlags :=
  let p1 := ballLeftWall (ballIntegrate gs b)
  let p2 := ballRightWall p1.1
  let p3 := ballCeiling p2.1
  let p4 := ballNet p3.1
  (p4.1, ⟨p1.2, p2.2, p3.2, p4.2⟩)

/-- Ball.check_ground_collision: when rect.bottom has reached GROUND_Y, clamp
the rect there, resync y, and report the scoring side: the AI scores when the
ball center is strictly left of the court midline, the player otherwise;
above the ground line no one scores and the ball is untouched. -/
def check_ground_collision (b : Ball) : Option Side × Ball :=
  if GROUND_Y ≤ b.rect.bottom then
    if (b.rect.setBottom GROUND_Y).centerx < SCREEN_WIDTH / 2 then
      (some Side.ai,
        { b with rect := b.rect.setBottom GROUND_Y
                 y := ((b.rect.setBottom GROUND_Y).centery : ℚ) })
    else
      (some Side.player,
        { b with rect := b.rect.setBottom GROUND_Y
                 y := ((b.rect.setBottom GROUND_Y).centery : ℚ) })
  else (none, b)

/-- Ball.reset: zero the velocity and re-center the ball above the serving
side at (SCREEN_WIDTH/4 or 3*SCREEN_WIDTH/4, SCREEN_HEIGHT/3). -/
def ball_reset (side : Side) (b : Ball) : Ball :=
  match side with
  | Side.player =>
      { b with dx := 0, dy := 0, x := 200, y := 200
               rect := b.rect.setCenter (pyRound 200) (pyRound 200) }
  | Side.ai =>
      { b with dx := 0, dy := 0, x := 600, y := 200
               rect := b.rect.setCenter (pyRound 600) (pyRound 200) }

/-- Ball.serve_with_power: velocity from base speeds (4, -7) scaled by
0.5 + power/100, horizontal sign by serving side, plus jitter parameters j1
and j2 standing for the two random.uniform(-0.5, 0.5) draws. -/
def serve_with_power (side : Side) (power j1 j2 : ℚ) (b : Ball) : Ball :=
  match side with
  | Side.player =>
      { b with dx := 4 * (1/2 + power / 100) + j1
               dy := -7 * (1/2 + power / 100) + j2 }
  | Side.ai =>
      { b with dx := -4 * (1/2 + power / 100) + j1
               dy := -7 * (1/2 + power / 100) + j2 }

/-- A call of Ball.serve_with_power made while the global game_state is gs.
The method reads no phase, so the phase argument is unused: the embedding
makes explicit that the call performs the same unconditional velocity update
in every phase. -/
def serveCallInPhase (_gs : GameState) (side : Side) (power j1 j2 : ℚ) (b : Ball) : Ball :=
  serve_with_power side power j1 j2 b

/-- Dog state shared by Player and AI: float position (x, y of the rect top
left corner), velocity, the integer rect (an 80 x 80 scaled sprite box), the
walk speed constant, the animation classifier fields and the jump flags.  The
wall-clock animate() frame cycling is presentation and is not modelled. -/
structure Dog where
  x : ℚ
  y : ℚ
  dx : ℚ
  dy : ℚ
  rect : Rect
  speed : ℚ
  moving_timer : ℕ
  state : AnimState
  frame_index : ℕ
  is_jumping : Bool
  is_grounded : Bool
deriving DecidableEq, Repr

/-- Dog.jump: a fixed upward impulse, only while grounded; a no-op in the air. -/
def Dog.jump (d : Dog) : Dog :=
  if d.is_grounded then
    { d with dy := JUMP_POWER, is_jumping := true, is_grounded := false }
  else d

/-- Dog.update_animation_state: idle below the movement threshold (resetting
the timer), walk until WALK_TO_RUN_THRESHOLD ticks of continuous movement,
run beyond it; a state change resets the animation frame index. -/
def update_animation_state (d : Dog) : Dog :=
  if ¬ (1/10 < |d.dx|) then
    if AnimState.idle = d.state then { d with moving_timer := 0 }
    else { d with moving_timer := 0, state := AnimState.idle, frame_index := 0 }
  else if d.moving_timer < WALK_TO_RUN_THRESHOLD then
    if AnimState.walk = d.state then { d with moving_timer := d.moving_timer + 1 }
    else { d with moving_timer := d.moving_timer + 1, state := AnimState.walk, frame_index := 0 }
  else
    if AnimState.run = d.state then { d with moving_timer := d.moving_timer + 1 }
    else { d with moving_timer := d.moving_timer + 1, state := AnimState.run, frame_index := 0 }

/-- Horizontal velocity after the friction and speed-cap lines of
Dog.apply_physics: multiplied by DECELERATION above the 0.1 epsilon, snapped
to zero below it, then clamped into [-MAX_SPEED, MAX_SPEED]. -/
def dog_new_dx (dx : ℚ) : ℚ :=
  let v := if 1/10 < |dx| then dx * DECELERATION else 0
  if MAX_SPEED < v then MAX_SPEED else if v < -MAX_SPEED then -MAX_SPEED else v

/-- Dog.apply_physics: gravity, friction and speed cap on dx, position
integration, rect resync by int() truncation, then the ground clamp that
zeroes dy and sets grounded. -/
def apply_physics (d : Dog) : Dog :=
  let dx := dog_new_dx d.dx
  let dy := d.dy + GRAVITY
  let x := d.x + dx
  let y := d.y + dy
  let r : Rect := { d.rect with left := pyInt x, top := pyInt y }
  if GROUND_Y ≤ r.bottom then
    { d with dx := dx, dy := 0, x := x
             y := (((r.setBottom GROUND_Y).top : ℤ) : ℚ)
             rect := r.setBottom GROUND_Y
             is_grounded := true, is_jumping := false }
  else
    { d with dx := dx, dy := dy, x := x, y := y, rect := r }

/-- Boundary clamp at the end of Player.update: the player stays between the
left screen edge and the net. -/
def player_boundary (d : Dog) : Dog :=
  let d1 :=
    if d.rect.left < 0 then
      { d with rect := d.rect.setLeft 0, x := (((d.rect.setLeft 0).left : ℤ) : ℚ) }
    else d
  if NET_X < d1.rect.right then
    { d1 with rect := d1.rect.setRight NET_X
              x := (((d1.rect.setRight NET_X).left : ℤ) : ℚ) }
  else d1

/-- Player state: a Dog plus the space-bar edge detector. -/
structure PlayerState extends Dog where
  space_pressed_last_frame : Bool
deriving DecidableEq, Repr

/-- The per-tick key signals read by Player.update. -/
structure Keys where
  left : Bool
  right : Bool
  up : Bool
  space : Bool
deriving DecidableEq, Repr

/-- The pieces of global state written by one Player.update call. -/
structure PlayerUpdateResult where
  p : PlayerState
  game_state : GameState
  serve_power : ℚ
  serve_charging : Bool
  ball : Ball
deriving DecidableEq, Repr

/-- Player.update: serve charge and release while serving on the player side
(with j1, j2 the serve jitter draws), jump and movement while playing, then
the space edge detector, animation classifier, physics and boundary clamp. -/
def player_update (k : Keys) (gs : GameState) (ss : Side) (charging : Bool)
    (sp j1 j2 : ℚ) (p : PlayerState) (b : Ball) : PlayerUpdateResult :=
  let ctl : GameState × Bool × ℚ × Ball × PlayerState :=
    if gs = GameState.serving ∧ ss = Side.player then
      let serve : GameState × Bool × ℚ × Ball :=
        if k.space && !charging then (gs, true, 0, b)
        else if k.space && charging then
          (gs, charging, min (sp + SERVE_POWER_RATE) MAX_SERVE_POWER, b)
        else if !k.space && charging && p.space_pressed_last_frame then
          (GameState.playing, false, 0, serve_with_power Side.player sp j1 j2 b)
        else (gs, charging, sp, b)
      let p1 :=
        if k.left then { p with dx := p.dx - ACCELERATION }
        else if k.right then { p with dx := p.dx + ACCELERATION }
        else p
      (serve.1, serve.2.1, serve.2.2.1, serve.2.2.2, p1)
    else if gs = GameState.playing then
      let p1 := if k.up then { p with toDog := p.toDog.jump } else p
      let p2 :=
        if k.left then { p1 with dx := p1.dx - ACCELERATION }
        else if k.right then { p1 with dx := p1.dx + ACCELERATION }
        else p1
      (gs, charging, sp, b, p2)
    else (gs, charging, sp, b, p)
  let p3 : PlayerState := { ctl.2.2.2.2 with space_pressed_last_frame := k.space }
  let d4 := player_boundary (apply_physics (update_animation_state p3.toDog))
  ⟨{ toDog := d4, space_pressed_last_frame := p3.space_pressed_last_frame },
    ctl.1, ctl.2.2.1, ctl.2.1, ctl.2.2.2.1⟩

/-- AI state: a Dog plus the jump cooldown and serve timer (serve_delay is
the constant 60). -/
structure AIState extends Dog where
  jump_cooldown : ℕ
  serve_timer : ℕ
deriving DecidableEq, Repr

/-- The serving script of AI.update (the branch taken when game_state is
serving and the AI is the server): drift toward the staging position x = 600
(slowing down inside the +-10 band and arming the 60-tick serve timer), count
the timer down while ramping the displayed serve power as
MAX_SERVE_POWER * (1 - timer/60), and on expiry serve with the random power
rp (drawn by random.uniform(60, 90)) and jitters j1, j2, reset the power and
switch to playing.  Returns (game_state, serve_power, ai, ball). -/
def ai_serving_update (gs : GameState) (ss : Side) (sp : ℚ) (a : AIState)
    (b : Ball) (rp j1 j2 : ℚ) : GameState × ℚ × AIState × Ball :=
  if gs = GameState.serving ∧ ss = Side.ai then
    let drift : ℚ × ℕ :=
      if (a.rect.centerx : ℚ) < 600 - 10 then (a.dx + ACCELERATION * (4/10), a.serve_timer)
      else if (600:ℚ) + 10 < (a.rect.centerx : ℚ) then (a.dx - ACCELERATION * (4/10), a.serve_timer)
      else (a.dx * DECELERATION, if a.serve_timer = 0 then 60 else a.serve_timer)
    if 0 < drift.2 then
      if drift.2 - 1 = 0 then
        (GameState.playing, 0, { a with dx := drift.1, serve_timer := 0 },
          serve_with_power Side.ai rp j1 j2 b)
      else
        (gs, MAX_SERVE_POWER * (1 - ((drift.2 - 1 : ℕ) : ℚ) / 60),
          { a with dx := drift.1, serve_timer := drift.2 - 1 }, b)
    else (gs, sp, { a with dx := drift.1, serve_timer := drift.2 }, b)
  else (gs, sp, a, b)

/-- The global match state threaded through the main loop. -/
structure MatchState where
  player_score : ℕ
  ai_score : ℕ
  winning_score : ℕ
  serve_side : Side
  game_state : GameState
  winner : Option Side
  point_pause_timer : ℤ
deriving DecidableEq, Repr

/-- The win check and transition after a score has been applied (main loop
lines after the score increment): game over with the winner recorded when a
score reached winning_score, otherwise a point pause with the ball reset
above the next server. -/
def scoringAfter (st : MatchState) (b : Ball) : MatchState × Ball :=
  if st.winning_score ≤ st.player_score then
    ({ st with winner := some Side.player, game_state := GameState.game_over }, b)
  else if st.winning_score ≤ st.ai_score then
    ({ st with winner := some Side.ai, game_state := GameState.game_over }, b)
  else
    ({ st with game_state := GameState.point_pause
               point_pause_timer := POINT_PAUSE_DURATION },
      ball_reset st.serve_side b)

/-- The scoring block of the main loop, run when check_ground_collision
reports a scorer: increment the scoring side, hand the serve to the other
side, then run the win check. -/
def scoringBlock (scorer : Side) (st : MatchState) (b : Ball) : MatchState × Ball :=
  match scorer with
  | Side.player =>
      scoringAfter { st with player_score := st.player_score + 1, serve_side := Side.ai } b
  | Side.ai =>
      scoringAfter { st with ai_score := st.ai_score + 1, serve_side := Side.player } b

/-- The state-machine skeleton of one main loop iteration: the point pause
countdown, and the scoring block (fed the check_ground_collision result)
while playing or serving.  Menu states, including game over, run their menu
loops and leave the match state untouched until an external reset. -/
def mainLoopTick (st : MatchState) (b : Ball) (score_result : Option Side) :
    MatchState × Ball :=
  if st.game_state = GameState.point_pause then
    if st.point_pause_timer - 1 ≤ 0 then
      ({ st with point_pause_timer := st.point_pause_timer - 1
                 game_state := GameState.serving }, b)
    else ({ st with point_pause_timer := st.point_pause_timer - 1 }, b)
  else if st.game_state = GameState.playing ∨ st.game_state = GameState.serving then
    match score_result with
    | some s => scoringBlock s st b
    | none => (st, b)
  else (st, b)

/-! Helper lemmas about the collision steps of Ball.update. -/

theorem ballIntegrate_width (gs : GameState) (b : Ball) :
    (ballIntegrate gs b).rect.width = b.rect.width := by
  unfold ballIntegrate
  split <;> rfl

theorem ballIntegrate_height (gs : GameState) (b : Ball) :
    (ballIntegrate gs b).rect.height = b.rect.height := by
  unfold ballIntegrate
  split <;> rfl

theorem ballLeftWall_width (b : Ball) : (ballLeftWall b).1.rect.width = b.rect.width := by
  unfold ballLeftWall
  split <;> rfl

theorem ballLeftWall_height (b : Ball) : (ballLeftWall b).1.rect.height = b.rect.height := by
  unfold ballLeftWall
  split <;> rfl

theorem ballLeftWall_left (b : Ball) (h : (ballLeftWall b).2 = true) :
    (ballLeftWall b).1.rect.left = 0 := by
  unfold ballLeftWall at h ⊢
  split_ifs at h ⊢ with hc
  rfl

theorem ballLeftWall_id (b : Ball) (h : (ballLeftWall b).2 = false) :
    (ballLeftWall b).1 = b := by
  unfold ballLeftWall at h ⊢
  split_ifs at h ⊢ with hc
  rfl

theorem ballRightWall_width (b : Ball) : (ballRightWall b).1.rect.width = b.rect.width := by
  unfold ballRightWall
  split <;> rfl

theorem ballRightWall_height (b : Ball) : (ballRightWall b).1.rect.height = b.rect.height := by
  unfold ballRightWall
  split <;> rfl

theorem ballRightWall_left (b : Ball) (h : (ballRightWall b).2 = true) :
    (ballRightWall b).1.rect.left = 800 - b.rect.width := by
  unfold ballRightWall at h ⊢
  split_ifs at h ⊢ with hc
  rfl

theorem ballRightWall_id (b : Ball) (h : (ballRightWall b).2 = false) :
    (ballRightWall b).1 = b := by
  unfold ballRightWall at h ⊢
  split_ifs at h ⊢ with hc
  rfl

theorem ballRightWall_flag (b : Ball) :
    (ballRightWall b).2 = true ↔ 800 ≤ b.rect.right := by
  unfold ballRightWall
  split <;> simp_all

theorem ballCeiling_left (b : Ball) : (ballCeiling b).1.rect.left = b.rect.left := by
  unfold ballCeiling
  split <;> rfl

theorem ballCeiling_width (b : Ball) : (ballCeiling b).1.rect.width = b.rect.width := by
  unfold ballCeiling
  split <;> rfl

theorem ballCeiling_height (b : Ball) : (ballCeiling b).1.rect.height = b.rect.height := by
  unfold ballCeiling
  split <;> rfl

theorem ballCeiling_top (b : Ball) (h : (ballCeiling b).2 = true) :
    (ballCeiling b).1.rect.top = 0 := by
  unfold ballCeiling at h ⊢
  split_ifs at h ⊢ with hc
  rfl

theorem ballCeiling_id (b : Ball) (h : (ballCeiling b).2 = false) :
    (ballCeiling b).1 = b := by
  unfold ballCeiling at h ⊢
  split_ifs at h ⊢ with hc
  rfl

theorem ballNet_flag (b : Ball) :
    (ballNet b).2 = true ↔ b.rect.colliderect NET_RECT := by
  unfold ballNet
  split_ifs <;> simp_all

/-- After a fired net branch the resulting rect no longer overlaps NET_RECT:
each of the four nudges moves the box strictly past one edge of the net. -/
theorem ballNet_no_overlap (b : Ball) (h : (ballNet b).2 = true) :
    ¬ (ballNet b).1.rect.colliderect NET_RECT := by
  have hL : NET_RECT.left = 395 := rfl
  have hT : NET_RECT.top = 370 := rfl
  have hW : NET_RECT.width = 10 := rfl
  have hH : NET_RECT.height = 150 := rfl
  unfold ballNet at h ⊢
  split_ifs at h ⊢ with hc hov hcx hcy
  · simp only [Rect.colliderect, Rect.setRight_def, hL, hT, hW, hH]
    omega
  · simp only [Rect.colliderect, Rect.setLeft_def, Rect.right_def, hL, hT, hW, hH]
    omega
  · simp only [Rect.colliderect, Rect.setBottom_def, hL, hT, hW, hH]
    omega
  · simp only [Rect.colliderect, Rect.setTop_def, Rect.bottom_def, hL, hT, hW, hH]
    omega

/-! Concrete inputs used by witnesses and counterexamples. -/

/-- A ball resting just above the ground on the player half. -/
def cballC4 : Ball := ⟨100, 510, 2, 3, ⟨85, 495, 30, 30⟩⟩

/-- An arbitrary ball for the serve witnesses. -/
def cballC3 : Ball := ⟨1, 2, 3, 4, ⟨0, 0, 30, 30⟩⟩

/-- A live match at 4 : 0 toward 5. -/
def cmatchC2 : MatchState := ⟨4, 0, 5, Side.player, GameState.playing, none, 0⟩

/-- A finished match sitting in game over. -/
def cmatchC2over : MatchState := ⟨3, 5, 5, Side.player, GameState.game_over, some Side.ai, 0⟩

/-- An arbitrary ball for the match witnesses. -/
def cballC2 : Ball := ⟨0, 0, 0, 0, ⟨0, 0, 30, 30⟩⟩

/-- C1: for every ground-collision event during play the total score
player_score + ai_score increases by exactly one, and the post-event serve
side is the side that did not just score: ai when the player scored, player
when the AI scored. -/
theorem spec_C1 (scorer : Side) (st : MatchState) (b : Ball) :
    (scoringBlock scorer st b).1.player_score + (scoringBlock scorer st b).1.ai_score
        = st.player_score + st.ai_score + 1
      ∧ (scoringBlock scorer st b).1.serve_side
        = (match scorer with | Side.player => Side.ai | Side.ai => Side.player) := by
  cases scorer <;> simp only [scoringBlock, scoringAfter] <;> split_ifs <;>
    exact ⟨by dsimp; omega, by dsimp⟩

/-- C2: the scoring block moves the match to game_over exactly when a
post-event score has reached winning_score, records the scoring side as the
winner when the match was still live, and a match already in game_over is
left untouched by further main loop iterations, so no further scoring is
possible. -/
theorem spec_C2 (scorer : Side) (st : MatchState) (b : Ball) :
    ((scoringBlock scorer st b).1.game_state = GameState.game_over ↔
        st.winning_score ≤ (scoringBlock scorer st b).1.player_score ∨
          st.winning_score ≤ (scoringBlock scorer st b).1.ai_score)
      ∧ (st.player_score < st.winning_score → st.ai_score < st.winning_score →
          (scoringBlock scorer st b).1.game_state = GameState.game_over →
          (scoringBlock scorer st b).1.winner = some scorer)
      ∧ (∀ (st2 : MatchState) (b2 : Ball) (r : Option Side),
          st2.game_state = GameState.game_over →
          (mainLoopTick st2 b2 r).1.player_score = st2.player_score
            ∧ (mainLoopTick st2 b2 r).1.ai_score = st2.ai_score
            ∧ (mainLoopTick st2 b2 r).1.game_state = GameState.game_over) := by
  refine ⟨?_, ?_, ?_⟩
  · cases scorer <;> simp only [scoringBlock, scoringAfter] <;>
      split_ifs with h1 h2 <;> simp <;> omega
  · intro hps hai hgo
    cases scorer <;> simp only [scoringBlock, scoringAfter] at hgo ⊢ <;>
      split_ifs at hgo ⊢ with h1 h2 <;> first | rfl | omega
  · intro st2 b2 r hgo
    refine ⟨?_, ?_, ?_⟩ <;> simp [mainLoopTick, hgo]

/-- C2 witness: from 4 : 0 toward 5 a player point ends the match with the
player recorded as winner, and a match in game over is left untouched by a
further loop iteration even when handed a score result. -/
theorem spec_C2_witness :
    (scoringBlock Side.player cmatchC2 cballC2).1.winner = some Side.player
      ∧ (mainLoopTick cmatchC2over cballC2 (some Side.player)).1.player_score
          = cmatchC2over.player_score :=
  ⟨(spec_C2 Side.player cmatchC2 cballC2).2.1 (by decide) (by decide)
      (by with_unfolding_all decide),
    ((spec_C2 Side.player cmatchC2 cballC2).2.2 cmatchC2over cballC2
      (some Side.player) (by decide)).1⟩

/-- C3: serve_with_power sets the velocity to
dx = 4 * (0.5 + power/100) + j1 and dy = -7 * (0.5 + power/100) + j2 for a
player serve, with dx negated for an AI serve, where the jitters lie in
[-0.5, 0.5]; at power 100 a player serve lands in 4 * 1.5 plus or minus 0.5
horizontally and -7 * 1.5 plus or minus 0.5 vertically. -/
theorem spec_C3 (p j1 j2 : ℚ) (b : Ball) (hp0 : 0 ≤ p) (hp1 : p ≤ 100)
    (hj1l : -(1/2) ≤ j1) (hj1u : j1 ≤ 1/2) (hj2l : -(1/2) ≤ j2) (hj2u : j2 ≤ 1/2) :
    (serve_with_power Side.player p j1 j2 b).dx = 4 * (1/2 + p / 100) + j1
      ∧ (serve_with_power Side.player p j1 j2 b).dy = -7 * (1/2 + p / 100) + j2
      ∧ (serve_with_power Side.ai p j1 j2 b).dx = -(4 * (1/2 + p / 100)) + j1
      ∧ (serve_with_power Side.ai p j1 j2 b).dy = -7 * (1/2 + p / 100) + j2
      ∧ (p = 100 →
          4 * (3/2) - 1/2 ≤ (serve_with_power Side.player p j1 j2 b).dx
            ∧ (serve_with_power Side.player p j1 j2 b).dx ≤ 4 * (3/2) + 1/2
            ∧ -7 * (3/2) - 1/2 ≤ (serve_with_power Side.player p j1 j2 b).dy
            ∧ (serve_with_power Side.player p j1 j2 b).dy ≤ -7 * (3/2) + 1/2) := by
  refine ⟨rfl, rfl, by dsimp [serve_with_power]; ring, rfl, ?_⟩
  rintro rfl
  dsimp [serve_with_power]
  refine ⟨by linarith, by linarith, by linarith, by linarith⟩

/-- C3 witness: a full-power player serve with zero jitter leaves exactly
dx = 4 * 1.5. -/
theorem spec_C3_witness :
    (serve_with_power Side.player 100 0 0 cballC3).dx = 4 * (1/2 + 100 / 100) + 0 :=
  (spec_C3 100 0 0 cballC3 (by norm_num) (by norm_num) (by norm_num) (by norm_num)
    (by norm_num) (by norm_num)).1

/-- C4: check_ground_collision reports a scorer exactly when the ball bottom
has reached the ground line; it then clamps the rect bottom to the ground
line and awards the point to the AI exactly when the ball center is strictly
left of the court midline, to the player otherwise; above the ground line it
reports no score and leaves the ball untouched. -/
theorem spec_C4 (b : Ball) :
    ((check_ground_collision b).1 ≠ none ↔ GROUND_Y ≤ b.rect.bottom)
      ∧ (GROUND_Y ≤ b.rect.bottom →
          (check_ground_collision b).2.rect.bottom = GROUND_Y
            ∧ ((check_ground_collision b).1 = some Side.ai ↔
                b.rect.centerx < SCREEN_WIDTH / 2)
            ∧ ((check_ground_collision b).1 = some Side.player ↔
                ¬ b.rect.centerx < SCREEN_WIDTH / 2))
      ∧ (b.rect.bottom < GROUND_Y → check_ground_collision b = (none, b)) := by
  unfold check_ground_collision
  split_ifs with h1 h2 <;>
    refine ⟨?_, fun hg => ⟨?_, ?_, ?_⟩, fun hl => ?_⟩ <;>
    simp_all [GROUND_Y, SCREEN_WIDTH, Rect.colliderect] <;>
    omega

/-- C4 witness: a ball at rect bottom 525 with center x = 100 is clamped and
gives the point to the AI. -/
theorem spec_C4_witness :
    (check_ground_collision cballC4).1 = some Side.ai :=
  (((spec_C4 cballC4).2.1 (by decide)).2.1).mpr (by decide)

/-- A falling ball that overlaps the net after integration (side hit). -/
def cballC5 : Ball := ⟨390, 799/2, 0, 0, ⟨0, 0, 30, 30⟩⟩

/-- A falling ball in the top-left corner of the screen. -/
def cballC6 : Ball := ⟨5, 9/2, 0, 0, ⟨0, 0, 30, 30⟩⟩

/-- Another falling ball that overlaps the net after integration. -/
def cballC6w : Ball := ⟨391, 799/2, 0, 0, ⟨0, 0, 30, 30⟩⟩

/-- C5: whenever Ball.update detects the ball box overlapping the net
rectangle, the resolution (side versus top hit by the smaller overlap, with
velocity inversion and a nudge) leaves the ball box no longer overlapping
the net rectangle. -/
theorem spec_C5 (gs : GameState) (b : Ball) (h : (ballUpdate gs b).2.net = true) :
    ¬ (ballUpdate gs b).1.rect.colliderect NET_RECT := by
  have e1 : (ballUpdate gs b).1
      = (ballNet (ballCeiling (ballRightWall (ballLeftWall (ballIntegrate gs b)).1).1).1).1 := rfl
  have e2 : (ballUpdate gs b).2.net
      = (ballNet (ballCeiling (ballRightWall (ballLeftWall (ballIntegrate gs b)).1).1).1).2 := rfl
  rw [e1]
  exact ballNet_no_overlap _ (e2 ▸ h)

/-- C5 witness: a concrete falling ball lands on the left net edge, the net
branch fires and the resolved box does not overlap the net. -/
theorem spec_C5_witness :
    ¬ (ballUpdate GameState.playing cballC5).1.rect.colliderect NET_RECT :=
  spec_C5 GameState.playing cballC5 (by with_unfolding_all decide)

/-- C6 counterexample: for a ball falling in the top-left screen corner the
side wall branch and the ceiling branch of the same Ball.update call both
fire, so two of the three collision categories resolve in a single tick and
the claimed mutual exclusion of all three categories fails. -/
theorem spec_C6_counterexample :
    (ballUpdate GameState.playing cballC6).2.leftWall = true
      ∧ (ballUpdate GameState.playing cballC6).2.ceiling = true := by
  with_unfolding_all decide

/-- C6 amended: for the 30 x 30 ball the net branch is mutually exclusive
with the wall and ceiling branches (and is checked after them): when the net
branch of a Ball.update call fires, none of the side wall or ceiling
branches fired in that call.  Wall and ceiling themselves can both fire in
one tick when the ball is in a top corner. -/
theorem spec_C6_amended (gs : GameState) (b : Ball) (hw : b.rect.width = 30)
    (hh : b.rect.height = 30) (h : (ballUpdate gs b).2.net = true) :
    (ballUpdate gs b).2.leftWall = false
      ∧ (ballUpdate gs b).2.rightWall = false
      ∧ (ballUpdate gs b).2.ceiling = false := by
  have hw0 : (ballIntegrate gs b).rect.width = 30 := by
    rw [ballIntegrate_width]; exact hw
  have hh0 : (ballIntegrate gs b).rect.height = 30 := by
    rw [ballIntegrate_height]; exact hh
  set b0 := ballIntegrate gs b with hb0
  have eL : (ballUpdate gs b).2.leftWall = (ballLeftWall b0).2 := rfl
  have eR : (ballUpdate gs b).2.rightWall = (ballRightWall (ballLeftWall b0).1).2 := rfl
  have eC : (ballUpdate gs b).2.ceiling
      = (ballCeiling (ballRightWall (ballLeftWall b0).1).1).2 := rfl
  have eN : (ballUpdate gs b).2.net
      = (ballNet (ballCeiling (ballRightWall (ballLeftWall b0).1).1).1).2 := rfl
  rw [eN, ballNet_flag] at h
  set b1 := (ballLeftWall b0).1 with hb1
  set b2 := (ballRightWall b1).1 with hb2
  set b3 := (ballCeiling b2).1 with hb3
  have hw1 : b1.rect.width = 30 := by rw [hb1, ballLeftWall_width]; exact hw0
  have hh1 : b1.rect.height = 30 := by rw [hb1, ballLeftWall_height]; exact hh0
  have hw2 : b2.rect.width = 30 := by rw [hb2, ballRightWall_width]; exact hw1
  have hh2 : b2.rect.height = 30 := by rw [hb2, ballRightWall_height]; exact hh1
  have hl32 : b3.rect.left = b2.rect.left := by rw [hb3, ballCeiling_left]
  have hw3 : b3.rect.width = 30 := by rw [hb3, ballCeiling_width]; exact hw2
  have hh3 : b3.rect.height = 30 := by rw [hb3, ballCeiling_height]; exact hh2
  rw [Rect.colliderect_iff] at h
  refine ⟨?_, ?_, ?_⟩
  · rw [eL]
    cases hfl : (ballLeftWall b0).2 with
    | false => rfl
    | true =>
      exfalso
      have l1 : b1.rect.left = 0 := by rw [hb1]; exact ballLeftWall_left b0 hfl
      have : b2.rect.left = 0 ∨ b2.rect.left = 800 - b1.rect.width := by
        cases hfr : (ballRightWall b1).2 with
        | false => left; rw [hb2, ballRightWall_id b1 hfr]; exact l1
        | true => right; rw [hb2]; exact ballRightWall_left b1 hfr
      rcases this with h2 | h2 <;>
        · rw [hl32, h2] at h
          simp [NET_RECT, hw1, hw3] at h
  · rw [eR]
    cases hfr : (ballRightWall b1).2 with
    | false => rfl
    | true =>
      exfalso
      have l2 : b2.rect.left = 800 - b1.rect.width := by
        rw [hb2]; exact ballRightWall_left b1 hfr
      rw [hl32, l2, hw1] at h
      simp [NET_RECT] at h
  · rw [eC]
    cases hfc : (ballCeiling b2).2 with
    | false => rfl
    | true =>
      exfalso
      have t3 : b3.rect.top = 0 := by rw [hb3]; exact ballCeiling_top b2 hfc
      rw [t3, hh3] at h
      simp [NET_RECT] at h

/-- C6 amended witness: a concrete net side hit fires only the net branch. -/
theorem spec_C6_amended_witness :
    (ballUpdate GameState.playing cballC6w).2.leftWall = false
      ∧ (ballUpdate GameState.playing cballC6w).2.rightWall = false
      ∧ (ballUpdate GameState.playing cballC6w).2.ceiling = false :=
  spec_C6_amended GameState.playing cballC6w (by decide) (by decide)
    (by with_unfolding_all decide)

/-! Helper lemmas about Dog.apply_physics. -/

theorem apply_physics_dx (d : Dog) : (apply_physics d).dx = dog_new_dx d.dx := by
  unfold apply_physics
  dsimp only
  split <;> rfl

theorem dog_new_dx_moving (v : ℚ) (h : 1/10 < |v|) :
    dog_new_dx v = max (-MAX_SPEED) (min MAX_SPEED (v * DECELERATION)) := by
  unfold dog_new_dx MAX_SPEED DECELERATION
  dsimp only
  rw [if_pos h, max_def, min_def]
  split_ifs <;> linarith

theorem dog_new_dx_idle (v : ℚ) (h : ¬ 1/10 < |v|) : dog_new_dx v = 0 := by
  unfold dog_new_dx MAX_SPEED
  dsimp only
  rw [if_neg h]
  norm_num

theorem dog_new_dx_bound (v : ℚ) : |dog_new_dx v| ≤ 8 := by
  unfold dog_new_dx MAX_SPEED DECELERATION
  dsimp only
  split_ifs with h1 h2 h3 <;> rw [abs_le] <;> constructor <;> linarith

/-- A grounded idle dog at the speed cap. -/
def cdogC7 : Dog := ⟨100, 440, 8, 0, ⟨100, 440, 80, 80⟩, 5, 0, AnimState.idle, 0, false, true⟩

/-- C7: in a tick without horizontal input (so with dx entering apply_physics
unchanged), apply_physics multiplies dx by DECELERATION = 0.85 when its
magnitude exceeds 0.1 and snaps it to exactly 0 otherwise, clamping the
result into [-8, 8]; the resulting magnitude never exceeds MAX_SPEED = 8,
and a dog at the cap dx = 8 decays to at most 8 * 0.85. -/
theorem spec_C7 (d : Dog) :
    (1/10 < |d.dx| →
        (apply_physics d).dx = max (-(8:ℚ)) (min 8 (d.dx * (85/100))))
      ∧ (¬ 1/10 < |d.dx| → (apply_physics d).dx = 0)
      ∧ |(apply_physics d).dx| ≤ 8
      ∧ (d.dx = 8 → (apply_physics d).dx ≤ 8 * (85/100)) := by
  rw [apply_physics_dx]
  refine ⟨fun h => ?_, fun h => dog_new_dx_idle _ h, dog_new_dx_bound _, fun h => ?_⟩
  · rw [dog_new_dx_moving _ h]
    rfl
  · rw [h, dog_new_dx_moving 8 (by norm_num)]
    unfold MAX_SPEED DECELERATION
    norm_num

/-- C7 witness: the capped idle dog decays from dx = 8 to at most 6.8. -/
theorem spec_C7_witness : (apply_physics cdogC7).dx ≤ 8 * (85/100) :=
  (spec_C7 cdogC7).2.2.2 rfl

/-- A grounded player standing on the left court. -/
def cplayerC10 : PlayerState :=
  ⟨⟨100, 440, 0, 0, ⟨100, 440, 80, 80⟩, 5, 0, AnimState.idle, 0, false, true⟩, false⟩

/-- A ball floating at the player serve position. -/
def cballC10 : Ball := ⟨200, 200, 0, 0, ⟨185, 185, 30, 30⟩⟩

/-- C10: outside the playing state, and in particular during the whole
serving phase, Player.update never reads the jump key: the entire update
result is unchanged when the up arrow is pressed, so the vertical velocity
and the grounded flag are unaffected by the jump input, which is only
processed while playing. -/
theorem spec_C10 (k : Keys) (gs : GameState) (ss : Side) (charging : Bool)
    (sp j1 j2 : ℚ) (p : PlayerState) (b : Ball) (hgs : gs ≠ GameState.playing) :
    player_update { k with up := true } gs ss charging sp j1 j2 p b
      = player_update { k with up := false } gs ss charging sp j1 j2 p b := by
  cases k with
  | mk l r u s =>
    unfold player_update
    dsimp only
    split_ifs <;> rfl

/-- C10 witness: a serving-phase tick with the up arrow pressed equals the
same tick without it. -/
theorem spec_C10_witness :
    player_update ⟨false, false, true, false⟩ GameState.serving Side.player false
        0 0 0 cplayerC10 cballC10
      = player_update ⟨false, false, false, false⟩ GameState.serving Side.player false
        0 0 0 cplayerC10 cballC10 :=
  spec_C10 ⟨false, false, false, false⟩ GameState.serving Side.player false
    0 0 0 cplayerC10 cballC10 (by decide)

/-- A ball at rest used for the unguarded serve call. -/
def cballC9 : Ball := ⟨50, 60, 0, 0, ⟨35, 45, 30, 30⟩⟩

/-- A grounded player for the amended C9 witness. -/
def cplayerC9 : PlayerState :=
  ⟨⟨120, 440, 1, 0, ⟨120, 440, 80, 80⟩, 5, 0, AnimState.walk, 0, false, true⟩, false⟩

/-- C9 counterexample: a serve_with_power call made while the phase is
playing (not serving) changes the velocity of a resting ball, so the call is
not guarded and does not leave the velocity unchanged. -/
theorem spec_C9_counterexample :
    (serveCallInPhase GameState.playing Side.player 100 0 0 cballC9).dx ≠ cballC9.dx := by
  with_unfolding_all decide

/-- C9 amended: Ball.serve_with_power itself is unguarded: a call in any
phase performs exactly the unconditional velocity update; the serving
precondition is maintained only by its callers, since Player.update never
touches the ball outside the serving phase. -/
theorem spec_C9_amended :
    (∀ (gs : GameState) (side : Side) (pw j1 j2 : ℚ) (b : Ball),
        serveCallInPhase gs side pw j1 j2 b = serve_with_power side pw j1 j2 b)
      ∧ (∀ (k : Keys) (gs : GameState) (ss : Side) (charging : Bool)
          (sp j1 j2 : ℚ) (p : PlayerState) (b : Ball), gs ≠ GameState.serving →
          (player_update k gs ss charging sp j1 j2 p b).ball = b) := by
  constructor
  · intro gs side pw j1 j2 b
    rfl
  · intro k gs ss charging sp j1 j2 p b hgs
    cases k with
    | mk l r u s =>
      unfold player_update
      dsimp only
      split_ifs <;> first | rfl | (exfalso; exact hgs (by simp_all))

/-- C9 amended witness: the phase-tagged call equals the raw serve update,
and a playing-phase Player.update leaves the ball untouched. -/
theorem spec_C9_amended_witness :
    serveCallInPhase GameState.game_over Side.ai 40 0 0 cballC9
        = serve_with_power Side.ai 40 0 0 cballC9
      ∧ (player_update ⟨false, true, false, false⟩ GameState.playing Side.player false
          0 0 0 cplayerC9 cballC9).ball = cballC9 :=
  ⟨spec_C9_amended.1 GameState.game_over Side.ai 40 0 0 cballC9,
    spec_C9_amended.2 ⟨false, true, false, false⟩ GameState.playing Side.player false
      0 0 0 cplayerC9 cballC9 (by decide)⟩

/-- An AI standing at the staging position with two serve ticks left. -/
def caiC8 : AIState :=
  ⟨⟨520, 440, 0, 0, ⟨560, 440, 80, 80⟩, 7/2, 0, AnimState.idle, 0, false, true⟩, 0, 2⟩

/-- An AI standing at the staging position with one serve tick left. -/
def caiC8w : AIState :=
  ⟨⟨520, 440, 0, 0, ⟨560, 440, 80, 80⟩, 7/2, 0, AnimState.idle, 0, false, true⟩, 0, 1⟩

/-- A ball floating at the AI serve position. -/
def cballC8 : Ball := ⟨600, 200, 0, 0, ⟨585, 185, 30, 30⟩⟩

/-- C8 counterexample: one tick before the AI serve fires (serve timer 2,
in position) the ramped serve power is already 100 * (1 - 1/60) = 295/3,
strictly above 90, while the match is still serving; so the displayed power
does not ramp linearly to a value in [60, 90] - the ramp target is
MAX_SERVE_POWER = 100 and the power actually served with is a fresh random
draw, not the ramped value. -/
theorem spec_C8_counterexample :
    (ai_serving_update GameState.serving Side.ai 0 caiC8 cballC8 75 0 0).1
        = GameState.serving
      ∧ (90:ℚ) < (ai_serving_update GameState.serving Side.ai 0 caiC8 cballC8 75 0 0).2.1 := by
  with_unfolding_all decide

/-- C8 amended: with the AI as server in the serving phase, the script
drifts toward the staging position x = 600 at 0.4 acceleration; once inside
the +-10 band with the timer unarmed it arms a 60 tick countdown (first tick
leaves 59 on the clock and power 100 * (1 - 59/60)); while more than one
tick remains the countdown decrements and the displayed power ramps
linearly as 100 * (1 - timer/60), toward 100 rather than toward the serve
draw; and on the final tick the AI serves with the independently drawn
random power rp in [60, 90] (plus jitter), resets the displayed power to 0
and switches the match to playing. -/
theorem spec_C8_amended (sp : ℚ) (a : AIState) (b : Ball) (rp j1 j2 : ℚ)
    (hrp1 : 60 ≤ rp) (hrp2 : rp ≤ 90)
    (hj1l : -(1/2) ≤ j1) (hj1u : j1 ≤ 1/2) (hj2l : -(1/2) ≤ j2) (hj2u : j2 ≤ 1/2) :
    ((a.rect.centerx : ℚ) < 590 → a.serve_timer = 0 →
        (ai_serving_update GameState.serving Side.ai sp a b rp j1 j2).1 = GameState.serving
          ∧ (ai_serving_update GameState.serving Side.ai sp a b rp j1 j2).2.1 = sp
          ∧ (ai_serving_update GameState.serving Side.ai sp a b rp j1 j2).2.2.1.dx
              = a.dx + ACCELERATION * (4/10)
          ∧ (ai_serving_update GameState.serving Side.ai sp a b rp j1 j2).2.2.1.serve_timer = 0
          ∧ (ai_serving_update GameState.serving Side.ai sp a b rp j1 j2).2.2.2 = b)
      ∧ (¬ (a.rect.centerx : ℚ) < 590 → ¬ (610:ℚ) < (a.rect.centerx : ℚ) →
          a.serve_timer = 0 →
          (ai_serving_update GameState.serving Side.ai sp a b rp j1 j2).1 = GameState.serving
            ∧ (ai_serving_update GameState.serving Side.ai sp a b rp j1 j2).2.1
                = MAX_SERVE_POWER * (1 - 59/60)
            ∧ (ai_serving_update GameState.serving Side.ai sp a b rp j1 j2).2.2.1.dx
                = a.dx * DECELERATION
            ∧ (ai_serving_update GameState.serving Side.ai sp a b rp j1 j2).2.2.1.serve_timer
                = 59
            ∧ (ai_serving_update GameState.serving Side.ai sp a b rp j1 j2).2.2.2 = b)
      ∧ (1 < a.serve_timer →
          (ai_serving_update GameState.serving Side.ai sp a b rp j1 j2).1 = GameState.serving
            ∧ (ai_serving_update GameState.serving Side.ai sp a b rp j1 j2).2.1
                = MAX_SERVE_POWER * (1 - ((a.serve_timer : ℚ) - 1)/60)
            ∧ (ai_serving_update GameState.serving Side.ai sp a b rp j1 j2).2.2.1.serve_timer
                = a.serve_timer - 1
            ∧ (ai_serving_update GameState.serving Side.ai sp a b rp j1 j2).2.2.2 = b)
      ∧ (a.serve_timer = 1 →
          (ai_serving_update GameState.serving Side.ai sp a b rp j1 j2).1 = GameState.playing
            ∧ (ai_serving_update GameState.serving Side.ai sp a b rp j1 j2).2.1 = 0
            ∧ (ai_serving_update GameState.serving Side.ai sp a b rp j1 j2).2.2.1.serve_timer
                = 0
            ∧ (ai_serving_update GameState.serving Side.ai sp a b rp j1 j2).2.2.2.dx
                = -4 * (1/2 + rp / 100) + j1
            ∧ (ai_serving_update GameState.serving Side.ai sp a b rp j1 j2).2.2.2.dy
                = -7 * (1/2 + rp / 100) + j2
            ∧ -4 * (1/2 + (90:ℚ)/100) - 1/2
                ≤ (ai_serving_update GameState.serving Side.ai sp a b rp j1 j2).2.2.2.dx
            ∧ (ai_serving_update GameState.serving Side.ai sp a b rp j1 j2).2.2.2.dx
                ≤ -4 * (1/2 + (60:ℚ)/100) + 1/2
            ∧ -7 * (1/2 + (90:ℚ)/100) - 1/2
                ≤ (ai_serving_update GameState.serving Side.ai sp a b rp j1 j2).2.2.2.dy
            ∧ (ai_serving_update GameState.serving Side.ai sp a b rp j1 j2).2.2.2.dy
                ≤ -7 * (1/2 + (60:ℚ)/100) + 1/2) := by
  have hc : GameState.serving = GameState.serving ∧ Side.ai = Side.ai := ⟨rfl, rfl⟩
  have e590 : ((600:ℚ) - 10) = 590 := by norm_num
  have e610 : ((600:ℚ) + 10) = 610 := by norm_num
  refine ⟨fun h1 h2 => ?_, fun h1 h2 h3 => ?_, fun ht => ?_, fun ht => ?_⟩
  · unfold ai_serving_update
    rw [if_pos hc, e590]
    dsimp only
    rw [if_pos h1, h2]
    norm_num
  · unfold ai_serving_update
    rw [if_pos hc, e590, e610]
    dsimp only
    rw [if_neg h1, if_neg h2, h3]
    norm_num
  · unfold ai_serving_update
    rw [if_pos hc, e590, e610]
    dsimp only
    have hcast : ((a.serve_timer - 1 : ℕ) : ℚ) = (a.serve_timer : ℚ) - 1 := by
      push_cast [Nat.cast_sub (show 1 ≤ a.serve_timer by omega)]
      ring
    by_cases hd1 : (a.rect.centerx : ℚ) < 590
    · rw [if_pos hd1]
      dsimp only
      rw [if_pos (show 0 < a.serve_timer by omega),
        if_neg (show ¬ a.serve_timer - 1 = 0 by omega)]
      exact ⟨rfl, by rw [hcast], rfl, rfl⟩
    · rw [if_neg hd1]
      by_cases hd2 : (610:ℚ) < (a.rect.centerx : ℚ)
      · rw [if_pos hd2]
        dsimp only
        rw [if_pos (show 0 < a.serve_timer by omega),
          if_neg (show ¬ a.serve_timer - 1 = 0 by omega)]
        exact ⟨rfl, by rw [hcast], rfl, rfl⟩
      · rw [if_neg hd2, if_neg (show ¬ a.serve_timer = 0 by omega)]
        dsimp only
        rw [if_pos (show 0 < a.serve_timer by omega),
          if_neg (show ¬ a.serve_timer - 1 = 0 by omega)]
        exact ⟨rfl, by rw [hcast], rfl, rfl⟩
  · unfold ai_serving_update
    rw [if_pos hc, e590, e610, ht]
    dsimp only
    by_cases hd1 : (a.rect.centerx : ℚ) < 590
    · rw [if_pos hd1]
      dsimp only
      rw [if_pos (show 0 < 1 by omega), if_pos (show 1 - 1 = 0 by omega)]
      refine ⟨rfl, rfl, rfl, rfl, rfl, ?_, ?_, ?_, ?_⟩ <;>
        · dsimp only [serve_with_power]
          linarith
    · rw [if_neg hd1]
      by_cases hd2 : (610:ℚ) < (a.rect.centerx : ℚ)
      · rw [if_pos hd2]
        dsimp only
        rw [if_pos (show 0 < 1 by omega), if_pos (show 1 - 1 = 0 by omega)]
        refine ⟨rfl, rfl, rfl, rfl, rfl, ?_, ?_, ?_, ?_⟩ <;>
          · dsimp only [serve_with_power]
            linarith
      · rw [if_neg hd2, if_neg (show ¬ (1:ℕ) = 0 by omega)]
        dsimp only
        rw [if_pos (show 0 < 1 by omega), if_pos (show 1 - 1 = 0 by omega)]
        refine ⟨rfl, rfl, rfl, rfl, rfl, ?_, ?_, ?_, ?_⟩ <;>
          · dsimp only [serve_with_power]
            linarith

/-- C8 amended witness: with one tick left on the serve clock and a random
draw of 75, the AI serves (dx = -4 * 1.25 = -5 with zero jitter), the power
resets to 0 and the match switches to playing. -/
theorem spec_C8_amended_witness :
    (ai_serving_update GameState.serving Side.ai 0 caiC8w cballC8 75 0 0).1
        = GameState.playing
      ∧ (ai_serving_update GameState.serving Side.ai 0 caiC8w cballC8 75 0 0).2.2.2.dx
        = -4 * (1/2 + 75 / 100) + 0 :=
  ⟨((spec_C8_amended 0 caiC8w cballC8 75 0 0 (by norm_num) (by norm_num) (by norm_num)
      (by norm_num) (by norm_num) (by norm_num)).2.2.2 rfl).1,
    ((spec_C8_amended 0 caiC8w cballC8 75 0 0 (by norm_num) (by norm_num) (by norm_num)
      (by norm_num) (by norm_num) (by norm_num)).2.2.2 rfl).2.2.2.1⟩

end Doggo
